import Mathlib

/-! DXGI desktop-duplication capture (`agent/internal/screen/dxgi_capture.cpp`)

A shallow embedding of the four entry points of the capture engine
(`InitDXGI`, `EnumDXGIOutputs`, `InitDXGIForOutput`, `CaptureDXGI`).

* C `int`/`LONG` values are `Int`; every arithmetic operation the code performs on
  them is wrapped to 32 bits with `wrap32`.
* Memory reached through a pointer is a function from byte offsets (relative to the
  pointer) to byte values, so that reads and writes outside an array are visible.
* The GPU is an environment record giving the `HRESULT` of each call; every call the
  code makes that creates, releases, acquires or maps something is appended to a trace.
-/

namespace DxgiCapture

/-! ## Machine integers, HRESULTs, memory -/

/-- Two's-complement wrap-around of an integer to the range of a 32-bit `int`. -/
def wrap32 (x : Int) : Int := (x + 2147483648) % 4294967296 - 2147483648

/-- Conversion of an `int` to the 64-bit unsigned `size_t` that `memcpy` takes. -/
def toSizeT (x : Int) : Nat := (x % 18446744073709551616).toNat

/-- The `FAILED(hr)` test of the Windows SDK: an `HRESULT` is a failure when negative. -/
def FAILED (hr : Int) : Bool := decide (hr < 0)

/-- The Windows SDK constant `DXGI_ERROR_WAIT_TIMEOUT` (0x887A0027) as a signed 32-bit value. -/
def DXGI_ERROR_WAIT_TIMEOUT : Int := -2005270489

/-- Bytes reachable from a pointer, indexed by the byte offset from that pointer. -/
abbrev Mem := Int → Nat

/-- The library call `memcpy(dst + d, src + s, n)`: `n` bytes starting at offset `s` of
`src` are stored at offsets `d .. d + n - 1` of `dst`. -/
def memcpy (dst : Mem) (d : Int) (src : Mem) (s : Int) (n : Nat) : Mem :=
  fun k => if d ≤ k ∧ k < d + n then src (s + (k - d)) else dst k

/-! ## Handles and the trace of GPU calls -/

/-- The COM objects the code holds references to. -/
inductive Handle where
  | device
  | context
  | dxgiDevice
  | adapter
  | output (i : Int)
  | output1
  | duplication
  | staging
  | desktopResource
  | acquiredTexture
  deriving DecidableEq, Repr

/-- One call made to the GPU stack. `obtain h` records that a successful call handed the
code a reference to `h`; `release h` is `h->Release()`. -/
inductive GpuCall where
  | obtain (h : Handle)
  | release (h : Handle)
  | acquireNextFrame (hr : Int)
  | queryTexture (hr : Int)
  | releaseFrame
  | copyResource
  | map (hr : Int)
  | unmap
  deriving DecidableEq, Repr

/-- The `DXGICapture` struct: four owned handles and the output size. -/
structure DXGICapture where
  device : Handle
  context : Handle
  duplication : Handle
  staging : Handle
  width : Int
  height : Int
  deriving DecidableEq, Repr

/-! ## `CaptureDXGI` -/

/-- What the GPU stack answers during one `CaptureDXGI` call: the `HRESULT`s of
`AcquireNextFrame`, of the `QueryInterface` to `ID3D11Texture2D` and of `Map`, and the
`D3D11_MAPPED_SUBRESOURCE` (`pData`, `RowPitch`) that a successful `Map` yields. -/
structure FrameEnv where
  hrAcquire : Int
  hrQuery : Int
  hrMap : Int
  pData : Mem
  RowPitch : Nat

/-- Outcome of one `CaptureDXGI` call: the returned status, the caller's buffer
afterwards, the GPU calls made, and the destination ranges `(offset, length)` of the
`memcpy` calls made, in order. -/
structure CaptureResult where
  ret : Int
  buffer : Option Mem
  trace : List GpuCall
  writes : List (Int × Nat)

/-- The value of `int expectedSize = cap->width * cap->height * 4`. -/
def expectedSize (cap : DXGICapture) : Int :=
  wrap32 (wrap32 (cap.width * cap.height) * 4)

/-- Body of the row loop for row `y`:
`memcpy(buffer + y * cap->width * 4, src + y * rowPitch, cap->width * 4)`. -/
def copyRow (cap : DXGICapture) (src : Mem) (rowPitch : Int)
    (st : Mem × List (Int × Nat)) (y : Nat) : Mem × List (Int × Nat) :=
  let d := wrap32 (wrap32 ((y : Int) * cap.width) * 4)
  let n := toSizeT (wrap32 (cap.width * 4))
  (memcpy st.1 d src (wrap32 ((y : Int) * rowPitch)) n, st.2 ++ [(d, n)])

/-- The loop `for (int y = 0; y < cap->height; y++)`: rows `0 .. height - 1` in order. -/
def copyRows (cap : DXGICapture) (src : Mem) (rowPitch : Int) (buf : Mem) :
    Mem × List (Int × Nat) :=
  (List.range cap.height.toNat).foldl (copyRow cap src rowPitch) (buf, [])

/-- The function `CaptureDXGI(cap, buffer, bufferSize)`; a null pointer is `none`. -/
def CaptureDXGI (cap : Option DXGICapture) (buffer : Option Mem) (bufferSize : Int)
    (env : FrameEnv) : CaptureResult :=
  match cap, buffer with
  | some cap, some buf =>
    if FAILED env.hrAcquire then
      if env.hrAcquire = DXGI_ERROR_WAIT_TIMEOUT then
        ⟨1, some buf, [.acquireNextFrame env.hrAcquire], []⟩
      else
        ⟨-2, some buf, [.acquireNextFrame env.hrAcquire], []⟩
    else
      let tr : List GpuCall :=
        [.acquireNextFrame env.hrAcquire, .queryTexture env.hrQuery,
         .release .desktopResource]
      if FAILED env.hrQuery then
        ⟨-3, some buf, tr ++ [.releaseFrame], []⟩
      else
        let tr := tr ++ [.copyResource, .release .acquiredTexture, .map env.hrMap]
        if FAILED env.hrMap then
          ⟨-4, some buf, tr ++ [.releaseFrame], []⟩
        else if bufferSize < expectedSize cap then
          ⟨-5, some buf, tr ++ [.unmap, .releaseFrame], []⟩
        else
          let st := copyRows cap env.pData (wrap32 env.RowPitch) buf
          ⟨0, some st.1, tr ++ [.unmap, .releaseFrame], st.2⟩
  | _, _ => ⟨-1, buffer, [], []⟩

/-- The status order as the interface description lists it: invalid arguments, then
timeout, then any other acquire failure, then resolve failure, then map failure, then
buffer too small, then success. -/
def statusInListedOrder (cap : Option DXGICapture) (buffer : Option Mem) (bufferSize : Int)
    (env : FrameEnv) : Int :=
  match cap, buffer with
  | some cap, some _ =>
    if env.hrAcquire = DXGI_ERROR_WAIT_TIMEOUT then 1
    else if env.hrAcquire < 0 then -2
    else if env.hrQuery < 0 then -3
    else if env.hrMap < 0 then -4
    else if bufferSize < expectedSize cap then -5
    else 0
  | _, _ => -1

/-- Replays a trace against the two per-call resources of a session: whether a frame is
held (acquired, not yet released) and whether the staging surface is mapped. A release or
unmap without its matching successful acquire or map, or a second acquire or map while
one is outstanding, makes the replay fail. -/
def replay : Bool × Bool → List GpuCall → Option (Bool × Bool)
  | st, [] => some st
  | (held, mapped), c :: cs =>
    match c with
    | .acquireNextFrame hr =>
      if FAILED hr then replay (held, mapped) cs
      else if held then none else replay (true, mapped) cs
    | .releaseFrame => if held then replay (false, mapped) cs else none
    | .map hr =>
      if FAILED hr then replay (held, mapped) cs
      else if mapped then none else replay (held, true) cs
    | .unmap => if mapped then replay (held, false) cs else none
    | _ => replay (held, mapped) cs

/-- Number of successful `AcquireNextFrame` calls in a trace. -/
def acquiredCount (t : List GpuCall) : Nat :=
  (t.filter fun c => match c with
    | .acquireNextFrame hr => !FAILED hr
    | _ => false).length

/-- Number of successful `Map` calls in a trace. -/
def mappedCount (t : List GpuCall) : Nat :=
  (t.filter fun c => match c with
    | .map hr => !FAILED hr
    | _ => false).length

/-- How a trace leaves the references the code holds. Starting from the handles `held`,
`obtain h` adds `h` (failing if it is already held), `release h` removes it (failing if it
is not held); every other call leaves the holdings alone. -/
def ledger : List Handle → List GpuCall → Option (List Handle)
  | held, [] => some held
  | held, c :: cs =>
    match c with
    | .obtain h => if h ∈ held then none else ledger (held ++ [h]) cs
    | .release h => if h ∈ held then ledger (held.erase h) cs else none
    | _ => ledger held cs

/-! ## `EnumDXGIOutputs` -/

/-- The struct `MonitorInfoC`; `name j` is `name[j]` of the 64-byte field. -/
structure MonitorInfoC where
  index : Int
  width : Int
  height : Int
  offsetX : Int
  offsetY : Int
  isPrimary : Int
  name : Nat → Nat

/-- The parts of `DXGI_OUTPUT_DESC` the code reads: `DeviceName j` is the wide character
`DeviceName[j]` (0 is the terminator) and the four `LONG`s of `DesktopCoordinates`. -/
structure DXGI_OUTPUT_DESC where
  DeviceName : Nat → Nat
  left : Int
  top : Int
  right : Int
  bottom : Int

/-- Store `v` at index `k` of an array. -/
def store {α : Type} (a : Nat → α) (k : Nat) (v : α) : Nat → α :=
  fun j => if j = k then v else a j

/-- The cast `(char)c` of a wide character: its low byte. -/
def toChar (c : Nat) : Nat := c % 256

/-- The loop `for (int j = 0; j < 63 && desc.DeviceName[j]; j++)` with body
`name[j] = (char)DeviceName[j]; name[j+1] = 0;`, from the current `j`; the first argument
bounds the number of iterations still allowed. -/
def nameLoop (dev : Nat → Nat) : Nat → Nat → (Nat → Nat) → (Nat → Nat)
  | 0, _, nm => nm
  | fuel + 1, j, nm =>
    if j < 63 ∧ dev j ≠ 0 then
      nameLoop dev fuel (j + 1) (store (store nm j (toChar (dev j))) (j + 1) 0)
    else nm

/-- The name conversion of one output: the loop from `j = 0`. The loop leaves at `j = 63`
at the latest, so the 64 iterations allowed are never used up (`nameLoop_fuel`). -/
def convertName (dev : Nat → Nat) (nm : Nat → Nat) : Nat → Nat :=
  nameLoop dev 64 0 nm

/-- The assignments of the enumeration loop body to `infos[count]` for output `i`. -/
def fillInfo (desc : DXGI_OUTPUT_DESC) (i : Int) (old : MonitorInfoC) : MonitorInfoC :=
  { index := i
    width := wrap32 (desc.right - desc.left)
    height := wrap32 (desc.bottom - desc.top)
    offsetX := desc.left
    offsetY := desc.top
    isPrimary := if desc.left = 0 ∧ desc.top = 0 then 1 else 0
    name := convertName desc.DeviceName old.name }

/-- Loop state of `EnumDXGIOutputs`: `count`, the caller's array and the calls so far. -/
structure EnumState where
  count : Nat
  infos : Nat → MonitorInfoC
  trace : List GpuCall

/-- The loop
`for (int i = 0; adapter->EnumOutputs(i, &output) != DXGI_ERROR_NOT_FOUND && count < maxCount; i++)`.
The list holds the adapter's outputs from index `i` on: `EnumOutputs(i, &output)` hands out
the head, or reports `DXGI_ERROR_NOT_FOUND` when the list is empty. The call is made, and
the output obtained, before `count < maxCount` is tested. -/
def enumLoop (maxCount : Int) : List DXGI_OUTPUT_DESC → Nat → EnumState → EnumState
  | [], _, st => st
  | desc :: rest, i, st =>
    let tr := st.trace ++ [.obtain (.output i)]
    if (st.count : Int) < maxCount then
      enumLoop maxCount rest (i + 1)
        { count := st.count + 1
          infos := store st.infos st.count (fillInfo desc i (st.infos st.count))
          trace := tr ++ [.release (.output i)] }
    else { st with trace := tr }

/-- What the GPU stack answers during `EnumDXGIOutputs`: the `HRESULT`s of
`D3D11CreateDevice`, of the `QueryInterface` to `IDXGIDevice` and of `GetAdapter`, and the
outputs attached to the adapter, in adapter order. -/
structure EnumEnv where
  hrCreateDevice : Int
  hrQueryDevice : Int
  hrGetAdapter : Int
  outputs : List DXGI_OUTPUT_DESC

/-- Outcome of `EnumDXGIOutputs`: returned count, the caller's array afterwards, and the
GPU calls made. -/
structure EnumResult where
  ret : Int
  infos : Nat → MonitorInfoC
  trace : List GpuCall

/-- The function `EnumDXGIOutputs(infos, maxCount)`. -/
def EnumDXGIOutputs (infos : Nat → MonitorInfoC) (maxCount : Int) (env : EnumEnv) :
    EnumResult :=
  if FAILED env.hrCreateDevice then ⟨0, infos, []⟩
  else
    let tr : List GpuCall := [.obtain .device, .obtain .context]
    if FAILED env.hrQueryDevice then
      ⟨0, infos, tr ++ [.release .device, .release .context]⟩
    else
      let tr := tr ++ [.obtain .dxgiDevice]
      if FAILED env.hrGetAdapter then
        ⟨0, infos, tr ++ [.release .dxgiDevice, .release .device, .release .context]⟩
      else
        let tr := tr ++ [.obtain .adapter, .release .dxgiDevice]
        let st := enumLoop maxCount env.outputs 0 ⟨0, infos, tr⟩
        ⟨st.count, st.infos,
          st.trace ++ [.release .adapter, .release .device, .release .context]⟩

/-! ## `InitDXGIForOutput` and `InitDXGI` -/

/-- What the GPU stack answers during session creation: the `HRESULT` of each of the
seven calls that can fail (`EnumOutputs` depending on the index asked for) and the mode
size `ModeDesc.Width`, `ModeDesc.Height` (both `UINT`) that `GetDesc` reports. -/
structure InitEnv where
  hrCreateDevice : Int
  hrQueryDevice : Int
  hrGetAdapter : Int
  hrEnumOutputs : Int → Int
  hrQueryOutput1 : Int
  hrDuplicateOutput : Int
  hrCreateTexture : Int
  modeWidth : Nat
  modeHeight : Nat

/-- The function `InitDXGIForOutput(outputIndex)`: the returned session (`none` is
`nullptr`) and the GPU calls made. -/
def InitDXGIForOutput (outputIndex : Int) (env : InitEnv) :
    Option DXGICapture × List GpuCall :=
  if FAILED env.hrCreateDevice then (none, [])
  else
    let tr : List GpuCall := [.obtain .device, .obtain .context]
    if FAILED env.hrQueryDevice then
      (none, tr ++ [.release .device, .release .context])
    else
      let tr := tr ++ [.obtain .dxgiDevice]
      if FAILED env.hrGetAdapter then
        (none, tr ++ [.release .dxgiDevice, .release .device, .release .context])
      else
        let tr := tr ++ [.obtain .adapter, .release .dxgiDevice]
        if FAILED (env.hrEnumOutputs outputIndex) then
          (none, tr ++ [.release .adapter, .release .device, .release .context])
        else
          let tr := tr ++ [.obtain (.output outputIndex), .release .adapter]
          if FAILED env.hrQueryOutput1 then
            (none, tr ++ [.release (.output outputIndex), .release .device,
              .release .context])
          else
            let tr := tr ++ [.obtain .output1, .release (.output outputIndex)]
            if FAILED env.hrDuplicateOutput then
              (none, tr ++ [.release .output1, .release .device, .release .context])
            else
              let tr := tr ++ [.obtain .duplication, .release .output1]
              let width := wrap32 env.modeWidth
              let height := wrap32 env.modeHeight
              if FAILED env.hrCreateTexture then
                (none, tr ++ [.release .duplication, .release .device, .release .context])
              else
                (some ⟨.device, .context, .duplication, .staging, width, height⟩,
                  tr ++ [.obtain .staging])

/-- The function `InitDXGI()`, transcribed from its own body: the same call sequence
with `EnumOutputs(0, ...)`. -/
def InitDXGI (env : InitEnv) : Option DXGICapture × List GpuCall :=
  if FAILED env.hrCreateDevice then (none, [])
  else
    let tr : List GpuCall := [.obtain .device, .obtain .context]
    if FAILED env.hrQueryDevice then
      (none, tr ++ [.release .device, .release .context])
    else
      let tr := tr ++ [.obtain .dxgiDevice]
      if FAILED env.hrGetAdapter then
        (none, tr ++ [.release .dxgiDevice, .release .device, .release .context])
      else
        let tr := tr ++ [.obtain .adapter, .release .dxgiDevice]
        if FAILED (env.hrEnumOutputs 0) then
          (none, tr ++ [.release .adapter, .release .device, .release .context])
        else
          let tr := tr ++ [.obtain (.output 0), .release .adapter]
          if FAILED env.hrQueryOutput1 then
            (none, tr ++ [.release (.output 0), .release .device, .release .context])
          else
            let tr := tr ++ [.obtain .output1, .release (.output 0)]
            if FAILED env.hrDuplicateOutput then
              (none, tr ++ [.release .output1, .release .device, .release .context])
            else
              let tr := tr ++ [.obtain .duplication, .release .output1]
              let width := wrap32 env.modeWidth
              let height := wrap32 env.modeHeight
              if FAILED env.hrCreateTexture then
                (none, tr ++ [.release .duplication, .release .device, .release .context])
              else
                (some ⟨.device, .context, .duplication, .staging, width, height⟩,
                  tr ++ [.obtain .staging])

/-- Whether one of the seven fallible steps of session creation fails. -/
def initFails (outputIndex : Int) (env : InitEnv) : Bool :=
  FAILED env.hrCreateDevice || FAILED env.hrQueryDevice || FAILED env.hrGetAdapter ||
  FAILED (env.hrEnumOutputs outputIndex) || FAILED env.hrQueryOutput1 ||
  FAILED env.hrDuplicateOutput || FAILED env.hrCreateTexture

/-! ## Sample inputs -/

/-- A wide-character string held in an array: the listed characters, then zeros. -/
def wideName (cs : List Nat) : Nat → Nat := fun j => cs.getD j 0

/-- A caller's array that was not cleared: every field 0, every name byte `'X'` (88). -/
def staleInfos : Nat → MonitorInfoC := fun _ => ⟨0, 0, 0, 0, 0, 0, fun _ => 88⟩

/-- Two outputs that both report desktop origin (0,0), named `A` and `B`. -/
def twoAtOrigin : List DXGI_OUTPUT_DESC :=
  [⟨wideName [65], 0, 0, 1920, 1080⟩, ⟨wideName [66], 0, 0, 1280, 1024⟩]

/-- An adapter with a single 1920 x 1080 output whose device name is empty. -/
def oneUnnamed : List DXGI_OUTPUT_DESC := [⟨wideName [], 0, 0, 1920, 1080⟩]

/-! ## Theorems: `CaptureDXGI` status codes and per-call resources -/

/-- The six ways `CaptureDXGI` returns once both pointers are non-null, each with the
condition under which it is taken and the complete outcome. -/
theorem CaptureDXGI_cases (c : DXGICapture) (b : Mem) (n : Int) (env : FrameEnv) :
    (env.hrAcquire = DXGI_ERROR_WAIT_TIMEOUT ∧ CaptureDXGI (some c) (some b) n env
        = ⟨1, some b, [.acquireNextFrame env.hrAcquire], []⟩) ∨
    (env.hrAcquire ≠ DXGI_ERROR_WAIT_TIMEOUT ∧ env.hrAcquire < 0 ∧
      CaptureDXGI (some c) (some b) n env
        = ⟨-2, some b, [.acquireNextFrame env.hrAcquire], []⟩) ∨
    (¬ env.hrAcquire < 0 ∧ env.hrQuery < 0 ∧ CaptureDXGI (some c) (some b) n env
        = ⟨-3, some b, [.acquireNextFrame env.hrAcquire, .queryTexture env.hrQuery,
            .release .desktopResource, .releaseFrame], []⟩) ∨
    (¬ env.hrAcquire < 0 ∧ ¬ env.hrQuery < 0 ∧ env.hrMap < 0 ∧
      CaptureDXGI (some c) (some b) n env
        = ⟨-4, some b, [.acquireNextFrame env.hrAcquire, .queryTexture env.hrQuery,
            .release .desktopResource, .copyResource, .release .acquiredTexture,
            .map env.hrMap, .releaseFrame], []⟩) ∨
    (¬ env.hrAcquire < 0 ∧ ¬ env.hrQuery < 0 ∧ ¬ env.hrMap < 0 ∧ n < expectedSize c ∧
      CaptureDXGI (some c) (some b) n env
        = ⟨-5, some b, [.acquireNextFrame env.hrAcquire, .queryTexture env.hrQuery,
            .release .desktopResource, .copyResource, .release .acquiredTexture,
            .map env.hrMap, .unmap, .releaseFrame], []⟩) ∨
    (¬ env.hrAcquire < 0 ∧ ¬ env.hrQuery < 0 ∧ ¬ env.hrMap < 0 ∧ ¬ n < expectedSize c ∧
      CaptureDXGI (some c) (some b) n env
        = ⟨0, some (copyRows c env.pData (wrap32 env.RowPitch) b).1,
            [.acquireNextFrame env.hrAcquire, .queryTexture env.hrQuery,
            .release .desktopResource, .copyResource, .release .acquiredTexture,
            .map env.hrMap, .unmap, .releaseFrame],
            (copyRows c env.pData (wrap32 env.RowPitch) b).2⟩) := by
  have ht : DXGI_ERROR_WAIT_TIMEOUT < 0 := by decide
  by_cases h2 : env.hrAcquire < 0
  · by_cases h1 : env.hrAcquire = DXGI_ERROR_WAIT_TIMEOUT
    · left
      refine ⟨h1, ?_⟩
      simp only [CaptureDXGI]
      rw [if_pos (show FAILED env.hrAcquire = true by simp [FAILED, h2]), if_pos h1]
    · right; left
      refine ⟨h1, h2, ?_⟩
      simp only [CaptureDXGI]
      rw [if_pos (show FAILED env.hrAcquire = true by simp [FAILED, h2]), if_neg h1]
  · right; right
    by_cases h3 : env.hrQuery < 0
    · left
      refine ⟨h2, h3, ?_⟩
      simp [CaptureDXGI, FAILED, h2, h3]
    · right
      by_cases h4 : env.hrMap < 0
      · left
        refine ⟨h2, h3, h4, ?_⟩
        simp [CaptureDXGI, FAILED, h2, h3, h4]
      · right
        by_cases h5 : n < expectedSize c
        · left
          refine ⟨h2, h3, h4, h5, ?_⟩
          simp [CaptureDXGI, FAILED, h2, h3, h4, h5]
        · right
          refine ⟨h2, h3, h4, h5, ?_⟩
          simp [CaptureDXGI, FAILED, h2, h3, h4, h5]

/-- C4. The status of `CaptureDXGI` is one of 0, 1, -1, -2, -3, -4, -5 and is the one
given by the first applicable condition in the listed order (null argument, timeout, other
acquire failure, resolve failure, map failure, `bufferSize < expectedSize`, success);
a timeout is reported as 1 and only a timeout is, and 0 is reported only when every step
succeeded and the buffer is large enough. -/
theorem CaptureDXGI_status (cap : Option DXGICapture) (buffer : Option Mem)
    (bufferSize : Int) (env : FrameEnv) :
    (CaptureDXGI cap buffer bufferSize env).ret
        = statusInListedOrder cap buffer bufferSize env ∧
    (CaptureDXGI cap buffer bufferSize env).ret ∈ ([0, 1, -1, -2, -3, -4, -5] : List Int) ∧
    ((CaptureDXGI cap buffer bufferSize env).ret = 1 ↔
      (cap.isSome ∧ buffer.isSome ∧ env.hrAcquire = DXGI_ERROR_WAIT_TIMEOUT)) ∧
    ((CaptureDXGI cap buffer bufferSize env).ret = 0 ↔
      (∃ c, cap = some c ∧ buffer.isSome ∧ ¬ env.hrAcquire < 0 ∧ ¬ env.hrQuery < 0 ∧
        ¬ env.hrMap < 0 ∧ expectedSize c ≤ bufferSize)) := by
  have ht : DXGI_ERROR_WAIT_TIMEOUT < 0 := by decide
  rcases cap with _ | c <;> rcases buffer with _ | b <;>
    simp only [CaptureDXGI, statusInListedOrder, FAILED] <;> try simp
  by_cases h1 : env.hrAcquire = DXGI_ERROR_WAIT_TIMEOUT
  · have h1' : env.hrAcquire < 0 := h1 ▸ ht
    simp [h1, ht]
  · by_cases h2 : env.hrAcquire < 0
    · simp [h1, h2]
    · by_cases h3 : env.hrQuery < 0
      · simp [h1, h2, h3]
      · by_cases h4 : env.hrMap < 0
        · simp [h1, h2, h3, h4]
        · by_cases h5 : bufferSize < expectedSize c
          · simp [h1, h2, h3, h4, h5]
          · simp [h1, h2, h3, h4, h5]
            omega

/-- C3. Whatever path `CaptureDXGI` returns by, its trace of GPU calls replays from "no
frame held, nothing mapped" back to "no frame held, nothing mapped" without ever releasing
or unmapping something not held; the number of `ReleaseFrame` calls equals the number of
successful `AcquireNextFrame` calls and the number of `Unmap` calls equals the number of
successful `Map` calls (each at most one). -/
theorem CaptureDXGI_releases_frame_and_mapping (cap : Option DXGICapture)
    (buffer : Option Mem) (bufferSize : Int) (env : FrameEnv) :
    replay (false, false) (CaptureDXGI cap buffer bufferSize env).trace
        = some (false, false) ∧
    (CaptureDXGI cap buffer bufferSize env).trace.count .releaseFrame
        = acquiredCount (CaptureDXGI cap buffer bufferSize env).trace ∧
    (CaptureDXGI cap buffer bufferSize env).trace.count .unmap
        = mappedCount (CaptureDXGI cap buffer bufferSize env).trace ∧
    acquiredCount (CaptureDXGI cap buffer bufferSize env).trace ≤ 1 ∧
    mappedCount (CaptureDXGI cap buffer bufferSize env).trace ≤ 1 := by
  have ht : DXGI_ERROR_WAIT_TIMEOUT < 0 := by decide
  rcases cap with _ | c <;> rcases buffer with _ | b <;>
    try (simp [CaptureDXGI, replay, acquiredCount, mappedCount]; done)
  rcases CaptureDXGI_cases c b bufferSize env with
    ⟨h1, e⟩ | ⟨_, h2, e⟩ | ⟨h2, h3, e⟩ | ⟨h2, h3, h4, e⟩ | ⟨h2, h3, h4, _, e⟩ |
    ⟨h2, h3, h4, _, e⟩ <;>
  rw [e] <;> simp [replay, acquiredCount, mappedCount, FAILED, *]

/-- C2 (as stated) fails: with a 2 x 2 session, a buffer of 0 bytes (less than the 16
needed) and a frame acquisition that times out, `CaptureDXGI` returns 1, not -5. -/
theorem CaptureDXGI_small_buffer_timeout :
    (0 : Int) < 2 * 2 * 4 ∧
    (0 : Int) < expectedSize ⟨.device, .context, .duplication, .staging, 2, 2⟩ ∧
    (CaptureDXGI (some ⟨.device, .context, .duplication, .staging, 2, 2⟩)
      (some fun _ => 0) 0 ⟨DXGI_ERROR_WAIT_TIMEOUT, 0, 0, fun _ => 0, 8⟩).ret = 1 ∧
    (CaptureDXGI (some ⟨.device, .context, .duplication, .staging, 2, 2⟩)
      (some fun _ => 0) 0 ⟨DXGI_ERROR_WAIT_TIMEOUT, 0, 0, fun _ => 0, 8⟩).ret ≠ -5 := by
  decide

/-- C2 (amended). With `bufferSize < expectedSize` (the code's `width * height * 4`) and a
non-null session and buffer: the buffer is left unchanged and nothing is copied whatever
the outcome of the GPU steps; the status is never 0; it is -5 exactly when acquisition,
resolution and mapping all succeed, and is the code of the first failing step otherwise. -/
theorem CaptureDXGI_small_buffer (cap : DXGICapture) (buf : Mem) (bufferSize : Int)
    (env : FrameEnv) (hsmall : bufferSize < expectedSize cap) :
    (CaptureDXGI (some cap) (some buf) bufferSize env).buffer = some buf ∧
    (CaptureDXGI (some cap) (some buf) bufferSize env).writes = [] ∧
    (CaptureDXGI (some cap) (some buf) bufferSize env).ret ≠ 0 ∧
    ((CaptureDXGI (some cap) (some buf) bufferSize env).ret = -5 ↔
      (¬ env.hrAcquire < 0 ∧ ¬ env.hrQuery < 0 ∧ ¬ env.hrMap < 0)) ∧
    (CaptureDXGI (some cap) (some buf) bufferSize env).ret
      = statusInListedOrder (some cap) (some buf) bufferSize env := by
  have ht : DXGI_ERROR_WAIT_TIMEOUT < 0 := by decide
  rcases CaptureDXGI_cases cap buf bufferSize env with
    ⟨h1, e⟩ | ⟨h1, h2, e⟩ | ⟨h2, h3, e⟩ | ⟨h2, h3, h4, e⟩ | ⟨h2, h3, h4, _, e⟩ |
    ⟨h2, h3, h4, h5, e⟩
  · rw [e]; simp [statusInListedOrder, h1, ht]
  · rw [e]; simp [statusInListedOrder, h1, h2]
  · have h1 : env.hrAcquire ≠ DXGI_ERROR_WAIT_TIMEOUT := fun h => h2 (h ▸ ht)
    rw [e]; simp [statusInListedOrder, h1, h2, h3]
  · have h1 : env.hrAcquire ≠ DXGI_ERROR_WAIT_TIMEOUT := fun h => h2 (h ▸ ht)
    rw [e]; simp [statusInListedOrder, h1, h2, h3, h4]
  · have h1 : env.hrAcquire ≠ DXGI_ERROR_WAIT_TIMEOUT := fun h => h2 (h ▸ ht)
    rw [e]; simp [statusInListedOrder, h1, h2, h3, h4, hsmall]
  · exact absurd hsmall h5

/-- Witness for `CaptureDXGI_small_buffer`: a 2 x 2 session with a 15-byte buffer. -/
theorem CaptureDXGI_small_buffer_witness :
    (15 : Int) < expectedSize ⟨.device, .context, .duplication, .staging, 2, 2⟩ ∧
    (CaptureDXGI (some ⟨.device, .context, .duplication, .staging, 2, 2⟩)
      (some fun _ => 7) 15 ⟨0, 0, 0, fun _ => 1, 8⟩).ret = -5 :=
  ⟨by decide,
   ((CaptureDXGI_small_buffer ⟨.device, .context, .duplication, .staging, 2, 2⟩
      (fun _ => 7) 15 ⟨0, 0, 0, fun _ => 1, 8⟩ (by decide)).2.2.2.1).2
      ⟨by decide, by decide, by decide⟩⟩

/-! ## Theorems: the row copy of `CaptureDXGI` -/

/-- A value inside the 32-bit `int` range is not changed by wrapping. -/
theorem wrap32_of_range (x : Int) (h1 : -2147483648 ≤ x) (h2 : x < 2147483648) :
    wrap32 x = x := by
  unfold wrap32; omega

/-- A non-negative 32-bit value converts to `size_t` unchanged. -/
theorem toSizeT_of_range (x : Int) (h1 : 0 ≤ x) (h2 : x < 2147483648) :
    (toSizeT x : Int) = x := by
  unfold toSizeT; omega

/-- One more row: the loop over `n + 1` rows is the loop over `n` rows followed by the
copy of row `n`. -/
theorem foldl_copyRow_succ (cap : DXGICapture) (src : Mem) (rp : Int) (buf : Mem) (n : Nat) :
    (List.range (n + 1)).foldl (copyRow cap src rp) (buf, [])
      = copyRow cap src rp ((List.range n).foldl (copyRow cap src rp) (buf, [])) n := by
  rw [List.range_succ, List.foldl_append]; rfl

/-- Without overflow, row `n` of the loop copies `4 * width` bytes from offset
`n * RowPitch` of the source to offset `n * 4 * width` of the buffer. -/
theorem copyRow_exact (cap : DXGICapture) (src : Mem) (p n : Nat)
    (st : Mem × List (Int × Nat))
    (hw : 0 ≤ cap.width) (hn : (n : Int) < cap.height)
    (hrep : cap.width * cap.height * 4 < 2147483648)
    (hpitch : (cap.height - 1) * (p : Int) < 2147483648) :
    copyRow cap src (wrap32 p) st n
      = (memcpy st.1 ((n : Int) * (4 * cap.width)) src ((n : Int) * p) (4 * cap.width).toNat,
         st.2 ++ [((n : Int) * (4 * cap.width), (4 * cap.width).toNat)]) := by
  have hn0 : (0 : Int) ≤ n := Int.ofNat_nonneg n
  have hp0 : (0 : Int) ≤ p := Int.ofNat_nonneg p
  have e1 : (cap.height - 1 - n) * cap.width ≥ 0 :=
    mul_nonneg (by omega) hw
  have e2 : (n : Int) * cap.width ≥ 0 := mul_nonneg hn0 hw
  have e3 : (cap.height - 1 - n) * (p : Int) ≥ 0 := mul_nonneg (by omega) hp0
  have e4 : (n : Int) * p ≥ 0 := mul_nonneg hn0 hp0
  have a1 : wrap32 ((n : Int) * cap.width) = (n : Int) * cap.width :=
    wrap32_of_range _ (by nlinarith) (by nlinarith)
  have a2 : wrap32 ((n : Int) * cap.width * 4) = (n : Int) * (4 * cap.width) := by
    rw [wrap32_of_range _ (by nlinarith) (by nlinarith)]; ring
  have a3 : wrap32 (cap.width * 4) = 4 * cap.width := by
    rw [wrap32_of_range _ (by nlinarith) (by nlinarith)]; ring
  have a4 : toSizeT (4 * cap.width) = (4 * cap.width).toNat := by
    have := toSizeT_of_range (4 * cap.width) (by nlinarith) (by nlinarith)
    omega
  have a5 : wrap32 ((n : Int) * wrap32 p) = (n : Int) * p := by
    rcases Nat.eq_zero_or_pos n with h0 | hpos
    · subst h0; simp [wrap32]
    · have hn1 : (1 : Int) ≤ n := by exact_mod_cast hpos
      have e5 : ((n : Int) - 1) * (p : Int) ≥ 0 := mul_nonneg (by omega) hp0
      rw [wrap32_of_range (p : Int) (by nlinarith) (by nlinarith)]
      exact wrap32_of_range _ (by nlinarith) (by nlinarith)
  simp only [copyRow, a1, a2, a3, a4, a5]

/-- Without overflow, after the first `n` rows of the loop: rows `0 .. n - 1` of the
buffer hold the first `4 * width` bytes of the corresponding source rows, bytes outside
`0 .. n * 4 * width - 1` are as before, and every `memcpy` destination range lies in
`0 .. n * 4 * width`. -/
theorem copyRows_prefix (cap : DXGICapture) (src buf : Mem) (p : Nat)
    (hw : 0 ≤ cap.width)
    (hrep : cap.width * cap.height * 4 < 2147483648)
    (hpitch : (cap.height - 1) * (p : Int) < 2147483648) :
    ∀ n : Nat, (n : Int) ≤ cap.height →
      (∀ y i : Nat, y < n → (i : Int) < 4 * cap.width →
        ((List.range n).foldl (copyRow cap src (wrap32 p)) (buf, [])).1
            ((y : Int) * 4 * cap.width + i) = src ((y : Int) * p + i)) ∧
      (∀ k : Int, k < 0 ∨ (n : Int) * (4 * cap.width) ≤ k →
        ((List.range n).foldl (copyRow cap src (wrap32 p)) (buf, [])).1 k = buf k) ∧
      (∀ r ∈ ((List.range n).foldl (copyRow cap src (wrap32 p)) (buf, [])).2,
        0 ≤ r.1 ∧ r.1 + (r.2 : Int) ≤ (n : Int) * (4 * cap.width)) := by
  intro n
  induction n with
  | zero =>
    intro _
    refine ⟨fun y i hy _ => absurd hy (Nat.not_lt_zero y), fun k _ => rfl, ?_⟩
    intro r hr
    simp at hr
  | succ n ih =>
    intro hn
    have hn' : (n : Int) < cap.height := by push_cast at hn; omega
    obtain ⟨ih1, ih2, ih3⟩ := ih (le_of_lt hn')
    rw [foldl_copyRow_succ, copyRow_exact cap src p n _ hw hn' hrep hpitch]
    have hW : (0 : Int) ≤ 4 * cap.width := by omega
    have hlen : (((4 * cap.width).toNat : Nat) : Int) = 4 * cap.width := Int.toNat_of_nonneg hW
    have hnW : (0 : Int) ≤ (n : Int) * (4 * cap.width) :=
      mul_nonneg (Int.ofNat_nonneg n) hW
    have hsucc : ((n + 1 : Nat) : Int) * (4 * cap.width)
        = (n : Int) * (4 * cap.width) + 4 * cap.width := by push_cast; ring
    refine ⟨?_, ?_, ?_⟩
    · intro y i hy hi
      have hi0 : (0 : Int) ≤ i := Int.ofNat_nonneg i
      have hyk : (y : Int) * 4 * cap.width = (y : Int) * (4 * cap.width) := by ring
      rcases Nat.lt_succ_iff_lt_or_eq.mp hy with hlt | heq
      · have hle : ((y : Int) + 1) * (4 * cap.width) ≤ (n : Int) * (4 * cap.width) :=
          mul_le_mul_of_nonneg_right (by exact_mod_cast hlt) hW
        have hlt' : (y : Int) * (4 * cap.width) + i < (n : Int) * (4 * cap.width) := by
          nlinarith
        have hout : ¬ ((n : Int) * (4 * cap.width) ≤ (y : Int) * 4 * cap.width + i ∧
            (y : Int) * 4 * cap.width + i
              < (n : Int) * (4 * cap.width) + ((4 * cap.width).toNat : Nat)) := by
          rw [hyk]; intro h; omega
        simp only [memcpy, if_neg hout]
        exact ih1 y i hlt hi
      · subst heq
        have hin : ((y : Int) * (4 * cap.width) ≤ (y : Int) * 4 * cap.width + i ∧
            (y : Int) * 4 * cap.width + i
              < (y : Int) * (4 * cap.width) + ((4 * cap.width).toNat : Nat)) := by
          rw [hyk, hlen]; omega
        simp only [memcpy, if_pos hin]
        congr 1
        rw [hyk]; omega
    · intro k hk
      have hout : ¬ ((n : Int) * (4 * cap.width) ≤ k ∧
          k < (n : Int) * (4 * cap.width) + ((4 * cap.width).toNat : Nat)) := by
        rw [hlen]; rw [hsucc] at hk; intro h; omega
      simp only [memcpy, if_neg hout]
      apply ih2
      rw [hsucc] at hk
      omega
    · intro r hr
      rw [hsucc]
      rcases List.mem_append.mp hr with h | h
      · have := ih3 r h
        omega
      · simp only [List.mem_singleton] at h
        subst h
        simp only [hlen]
        omega

/-- C1 (amended). For a session of width `w` and height `h` (both non-negative, `w*h*4`
representable as a 32-bit int), a buffer with `bufferSize ≥ w*h*4`, and a frame whose
acquire, resolve and map steps succeed with row pitch `p ≥ 4*w` such that the largest row
offset `(h-1)*p` is representable as a 32-bit int: `CaptureDXGI` returns 0, row `y` of
the buffer (offsets `y*4*w + i`, `i < 4*w`) holds source bytes `y*p + i`, and every
buffer byte at an offset `≥ w*h*4` (or below 0) is unchanged; every `memcpy` destination
range lies in `0 .. w*h*4`. -/
theorem CaptureDXGI_rows_packed (cap : DXGICapture) (buf : Mem) (bufferSize : Int)
    (env : FrameEnv)
    (hw : 0 ≤ cap.width) (hh : 0 ≤ cap.height)
    (hrep : cap.width * cap.height * 4 < 2147483648)
    (hsize : cap.width * cap.height * 4 ≤ bufferSize)
    (hacq : ¬ env.hrAcquire < 0) (hres : ¬ env.hrQuery < 0) (hmap : ¬ env.hrMap < 0)
    (_hp : 4 * cap.width ≤ (env.RowPitch : Int))
    (hpitch : (cap.height - 1) * (env.RowPitch : Int) < 2147483648) :
    (CaptureDXGI (some cap) (some buf) bufferSize env).ret = 0 ∧
    ∃ out : Mem, (CaptureDXGI (some cap) (some buf) bufferSize env).buffer = some out ∧
      (∀ y i : Nat, (y : Int) < cap.height → (i : Int) < 4 * cap.width →
        out ((y : Int) * 4 * cap.width + i) = env.pData ((y : Int) * env.RowPitch + i)) ∧
      (∀ k : Int, k < 0 ∨ cap.width * cap.height * 4 ≤ k → out k = buf k) ∧
      (∀ r ∈ (CaptureDXGI (some cap) (some buf) bufferSize env).writes,
        0 ≤ r.1 ∧ r.1 + (r.2 : Int) ≤ cap.width * cap.height * 4) := by
  have hwh : 0 ≤ cap.width * cap.height := mul_nonneg hw hh
  have hes : expectedSize cap = cap.width * cap.height * 4 := by
    unfold expectedSize
    rw [wrap32_of_range (cap.width * cap.height) (by omega) (by omega),
      wrap32_of_range (cap.width * cap.height * 4) (by omega) (by omega)]
  have hnot : ¬ bufferSize < expectedSize cap := by rw [hes]; omega
  have hT : ((cap.height.toNat : Nat) : Int) = cap.height := Int.toNat_of_nonneg hh
  obtain ⟨i1, i2, i3⟩ := copyRows_prefix cap env.pData buf env.RowPitch hw hrep hpitch
    cap.height.toNat (by omega)
  have hmul : ((cap.height.toNat : Nat) : Int) * (4 * cap.width)
      = cap.width * cap.height * 4 := by rw [hT]; ring
  rcases CaptureDXGI_cases cap buf bufferSize env with
    ⟨h1, _⟩ | ⟨_, h2, _⟩ | ⟨_, h3, _⟩ | ⟨_, _, h4, _⟩ | ⟨_, _, _, h5, _⟩ | ⟨_, _, _, _, e⟩
  · exact absurd (h1 ▸ (by decide : DXGI_ERROR_WAIT_TIMEOUT < 0)) hacq
  · exact absurd h2 hacq
  · exact absurd h3 hres
  · exact absurd h4 hmap
  · exact absurd h5 hnot
  · rw [e]
    refine ⟨rfl, _, rfl, ?_, ?_, ?_⟩
    · intro y i hy hi
      exact i1 y i (by omega) hi
    · intro k hk
      apply i2 k
      rw [hmul]; exact hk
    · intro r hr
      have := i3 r hr
      rw [hmul] at this
      exact this

/-- Witness for `CaptureDXGI_rows_packed`: a 2 x 2 session, a 16-byte buffer and a frame
mapped with row pitch 12 (4 bytes of padding per row). -/
theorem CaptureDXGI_rows_packed_witness :
    (CaptureDXGI (some ⟨.device, .context, .duplication, .staging, 2, 2⟩)
      (some fun _ => 0) 16 ⟨0, 0, 0, fun k => k.toNat % 256, 12⟩).ret = 0 :=
  (CaptureDXGI_rows_packed ⟨.device, .context, .duplication, .staging, 2, 2⟩
    (fun _ => 0) 16 ⟨0, 0, 0, fun k => k.toNat % 256, 12⟩
    (by decide) (by decide) (by decide) (by decide) (by decide) (by decide) (by decide)
    (by decide) (by decide)).1

/-- C1 (as stated) fails: a 1 x 3 session, a 12-byte buffer and a frame mapped with row
pitch 2^30 satisfy every condition of the claim and the call returns 0, but row 2 of the
buffer is not source byte `2 * 2^30`: the `int` product `y * rowPitch` wraps to `-2^31`
and the byte is read from there. -/
theorem CaptureDXGI_rows_packed_pitch_overflow :
    ((0 : Int) ≤ 1 ∧ (0 : Int) ≤ 3 ∧ (1 : Int) * 3 * 4 < 2147483648 ∧
      (1 : Int) * 3 * 4 ≤ 12 ∧ (4 : Int) * 1 ≤ 1073741824) ∧
    (CaptureDXGI (some ⟨.device, .context, .duplication, .staging, 1, 3⟩)
      (some fun _ => 0) 12
      ⟨0, 0, 0, fun k => if k = 2147483648 then 1 else 0, 1073741824⟩).ret = 0 ∧
    ¬ ∃ out : Mem,
      (CaptureDXGI (some ⟨.device, .context, .duplication, .staging, 1, 3⟩)
        (some fun _ => 0) 12
        ⟨0, 0, 0, fun k => if k = 2147483648 then 1 else 0, 1073741824⟩).buffer = some out ∧
      ∀ y i : Nat, (y : Int) < 3 → (i : Int) < 4 * 1 →
        out ((y : Int) * 4 * 1 + i)
          = (fun k : Int => if k = 2147483648 then 1 else 0) ((y : Int) * 1073741824 + i) := by
  refine ⟨by decide, by decide, ?_⟩
  rintro ⟨out, hout, h⟩
  have e : ((CaptureDXGI (some ⟨.device, .context, .duplication, .staging, 1, 3⟩)
        (some fun _ => 0) 12
        ⟨0, 0, 0, fun k => if k = 2147483648 then 1 else 0, 1073741824⟩).buffer.map
          fun m => m 8) = some 0 := by decide
  rw [hout] at e
  have h2 := h 2 0 (by decide) (by decide)
  simp at e h2
  omega

/-- A value inside the `int` range: `expectedSize` is then the exact product. -/
theorem expectedSize_of_range (cap : DXGICapture) (h0 : 0 ≤ cap.width * cap.height)
    (h1 : cap.width * cap.height * 4 < 2147483648) :
    expectedSize cap = cap.width * cap.height * 4 := by
  unfold expectedSize
  rw [wrap32_of_range (cap.width * cap.height) (by omega) (by omega),
    wrap32_of_range (cap.width * cap.height * 4) (by omega) (by omega)]

/-- The recorded `memcpy` ranges cover every change of the row loop: a byte outside all
of them is as before. -/
theorem copyRows_unwritten (cap : DXGICapture) (src buf : Mem) (rp : Int) (k : Int) :
    ∀ n : Nat,
      (∀ r ∈ ((List.range n).foldl (copyRow cap src rp) (buf, [])).2,
        ¬ (r.1 ≤ k ∧ k < r.1 + (r.2 : Int))) →
      ((List.range n).foldl (copyRow cap src rp) (buf, [])).1 k = buf k := by
  intro n
  induction n with
  | zero => intro _; rfl
  | succ n ih =>
    rw [foldl_copyRow_succ]
    intro h
    simp only [copyRow] at h ⊢
    have hlast := h _ (List.mem_append_right _ (List.mem_singleton_self _))
    simp only [memcpy, if_neg hlast]
    exact ih fun r hr => h r (List.mem_append_left _ hr)

/-- The recorded `memcpy` ranges of a `CaptureDXGI` call cover every change it makes to
the caller's buffer. -/
theorem CaptureDXGI_unwritten (cap : DXGICapture) (buf out : Mem) (bufferSize : Int)
    (env : FrameEnv)
    (hout : (CaptureDXGI (some cap) (some buf) bufferSize env).buffer = some out) (k : Int)
    (hk : ∀ r ∈ (CaptureDXGI (some cap) (some buf) bufferSize env).writes,
      ¬ (r.1 ≤ k ∧ k < r.1 + (r.2 : Int))) :
    out k = buf k := by
  rcases CaptureDXGI_cases cap buf bufferSize env with
    ⟨_, e⟩ | ⟨_, _, e⟩ | ⟨_, _, e⟩ | ⟨_, _, _, e⟩ | ⟨_, _, _, _, e⟩ | ⟨_, _, _, _, e⟩ <;>
  rw [e] at hout hk <;> simp only [Option.some.injEq] at hout <;> subst hout
  all_goals first
    | rfl
    | exact copyRows_unwritten cap env.pData buf _ k _ hk

/-- C9 (the code at a failing input). A session of width 2^28 and height 4 with a 16-byte
buffer: `width * height * 4` is 2^32 and wraps to `expectedSize = 0`, so the capacity
check passes and the call returns 0, yet the four `memcpy` calls write 2^30 bytes each, at
offsets 0, 2^30, -2^31 and -2^30 of the buffer: offset 16 (past the end) and offset -1
(before the start) are overwritten with source bytes. -/
theorem CaptureDXGI_capacity_check_overflow :
    expectedSize ⟨.device, .context, .duplication, .staging, 268435456, 4⟩ = 0 ∧
    (CaptureDXGI (some ⟨.device, .context, .duplication, .staging, 268435456, 4⟩)
      (some fun _ => 0) 16 ⟨0, 0, 0, fun _ => 255, 1073741824⟩).ret = 0 ∧
    (CaptureDXGI (some ⟨.device, .context, .duplication, .staging, 268435456, 4⟩)
      (some fun _ => 0) 16 ⟨0, 0, 0, fun _ => 255, 1073741824⟩).writes
      = [(0, 1073741824), (1073741824, 1073741824), (-2147483648, 1073741824),
         (-1073741824, 1073741824)] ∧
    ((CaptureDXGI (some ⟨.device, .context, .duplication, .staging, 268435456, 4⟩)
      (some fun _ => 0) 16 ⟨0, 0, 0, fun _ => 255, 1073741824⟩).buffer.map
        fun m => (m 16, m (-1))) = some (255, 255) := by
  decide

/-! ## Theorems: `EnumDXGIOutputs` -/

/-- What the enumeration loop does from a state `st` with the outputs `l` still to come:
it runs `min l.length (maxCount - count)` iterations, each filling the next entry of the
array from the next output, and touches no other entry. -/
theorem enumLoop_spec (maxCount : Int) :
    ∀ (l : List DXGI_OUTPUT_DESC) (i : Nat) (st : EnumState),
      (enumLoop maxCount l i st).count
          = st.count + min l.length (maxCount - st.count).toNat ∧
      (∀ (j : Nat) (hj : j < l.length), ((st.count + j : Nat) : Int) < maxCount →
        (enumLoop maxCount l i st).infos (st.count + j)
          = fillInfo (l.get ⟨j, hj⟩) ((i + j : Nat) : Int) (st.infos (st.count + j))) ∧
      (∀ k : Nat, k < st.count ∨ st.count + min l.length (maxCount - st.count).toNat ≤ k →
        (enumLoop maxCount l i st).infos k = st.infos k) := by
  intro l
  induction l with
  | nil =>
    intro i st
    refine ⟨by simp [enumLoop], fun j hj => absurd hj (Nat.not_lt_zero j), fun k _ => rfl⟩
  | cons d rest ih =>
    intro i st
    by_cases hc : (st.count : Int) < maxCount
    · obtain ⟨ih1, ih2, ih3⟩ := ih (i + 1)
        { count := st.count + 1
          infos := store st.infos st.count (fillInfo d i (st.infos st.count))
          trace := st.trace ++ [.obtain (.output i)] ++ [.release (.output i)] }
      dsimp only at ih1 ih2 ih3
      have hm : min (d :: rest).length (maxCount - st.count).toNat
          = 1 + min rest.length (maxCount - ((st.count + 1 : Nat) : Int)).toNat := by
        simp only [List.length_cons]
        omega
      simp only [enumLoop, if_pos hc]
      refine ⟨?_, ?_, ?_⟩
      · rw [ih1, hm]; omega
      · intro j hj hlt
        rcases j with _ | j
        · simp only [Nat.add_zero]
          rw [ih3 st.count (Or.inl (Nat.lt_succ_self _))]
          simp [store]
        · have hj' : j < rest.length := by simpa using hj
          have := ih2 j hj' (by push_cast at hlt ⊢; omega)
          have e1 : st.count + (j + 1) = st.count + 1 + j := by omega
          have e2 : i + (j + 1) = i + 1 + j := by omega
          rw [e1, e2, this]
          simp only [store, List.get_cons_succ]
          rw [if_neg (by omega)]
      · intro k hk
        rw [hm] at hk
        rw [ih3 k (by omega)]
        simp only [store]
        rw [if_neg (by omega)]
    · have hm : min (d :: rest).length (maxCount - st.count).toNat = 0 := by
        have : (maxCount - st.count).toNat = 0 := by omega
        simp [this]
      simp only [enumLoop, if_neg hc]
      refine ⟨by rw [hm]; rfl, ?_, fun k _ => trivial⟩
      intro j hj hlt
      exact absurd hlt (by push_cast; omega)

/-- The outcome of `EnumDXGIOutputs` when device, DXGI device and adapter are all
obtained: the loop run from `count = 0`, followed by the three final releases. -/
theorem EnumDXGIOutputs_ok (infos : Nat → MonitorInfoC) (maxCount : Int) (env : EnumEnv)
    (h1 : ¬ env.hrCreateDevice < 0) (h2 : ¬ env.hrQueryDevice < 0)
    (h3 : ¬ env.hrGetAdapter < 0) :
    EnumDXGIOutputs infos maxCount env
      = ⟨(enumLoop maxCount env.outputs 0 ⟨0, infos,
            [.obtain .device, .obtain .context, .obtain .dxgiDevice, .obtain .adapter,
             .release .dxgiDevice]⟩).count,
         (enumLoop maxCount env.outputs 0 ⟨0, infos,
            [.obtain .device, .obtain .context, .obtain .dxgiDevice, .obtain .adapter,
             .release .dxgiDevice]⟩).infos,
         (enumLoop maxCount env.outputs 0 ⟨0, infos,
            [.obtain .device, .obtain .context, .obtain .dxgiDevice, .obtain .adapter,
             .release .dxgiDevice]⟩).trace
           ++ [.release .adapter, .release .device, .release .context]⟩ := by
  simp [EnumDXGIOutputs, FAILED, h1, h2, h3]

/-- The outcome of `EnumDXGIOutputs` when device or adapter acquisition fails: 0 is
returned and the caller's array is the one passed in. -/
theorem EnumDXGIOutputs_failed (infos : Nat → MonitorInfoC) (maxCount : Int) (env : EnumEnv)
    (h : env.hrCreateDevice < 0 ∨ env.hrQueryDevice < 0 ∨ env.hrGetAdapter < 0) :
    (EnumDXGIOutputs infos maxCount env).ret = 0 ∧
    (EnumDXGIOutputs infos maxCount env).infos = infos := by
  by_cases h1 : env.hrCreateDevice < 0
  · simp [EnumDXGIOutputs, FAILED, h1]
  · by_cases h2 : env.hrQueryDevice < 0
    · simp [EnumDXGIOutputs, FAILED, h1, h2]
    · have h3 : env.hrGetAdapter < 0 := by tauto
      simp [EnumDXGIOutputs, FAILED, h1, h2, h3]

/-- C5. For `maxCount ≥ 0` and an adapter with `n` outputs: when device and adapter
acquisition succeed, `EnumDXGIOutputs` returns `min maxCount n`, leaves every entry at or
beyond that count untouched, and entry `j` below it has `index = j` and the geometry of
adapter output `j` (`width = right - left`, `height = bottom - top` in the code's 32-bit
arithmetic, which is the exact difference whenever that is representable,
`offsetX = left`, `offsetY = top`); when acquisition fails it returns 0 and writes
nothing; with `maxCount = 0` it returns 0 and writes nothing. -/
theorem EnumDXGIOutputs_count_and_order (infos : Nat → MonitorInfoC) (maxCount : Int)
    (env : EnumEnv) (hmax : 0 ≤ maxCount) :
    ((env.hrCreateDevice < 0 ∨ env.hrQueryDevice < 0 ∨ env.hrGetAdapter < 0) →
      (EnumDXGIOutputs infos maxCount env).ret = 0 ∧
      (EnumDXGIOutputs infos maxCount env).infos = infos) ∧
    ((¬ env.hrCreateDevice < 0 ∧ ¬ env.hrQueryDevice < 0 ∧ ¬ env.hrGetAdapter < 0) →
      (EnumDXGIOutputs infos maxCount env).ret = min maxCount env.outputs.length ∧
      (∀ k : Nat, min maxCount env.outputs.length ≤ (k : Int) →
        (EnumDXGIOutputs infos maxCount env).infos k = infos k) ∧
      (∀ (j : Nat) (hj : j < env.outputs.length), (j : Int) < maxCount →
        ((EnumDXGIOutputs infos maxCount env).infos j).index = j ∧
        ((EnumDXGIOutputs infos maxCount env).infos j).width
          = wrap32 ((env.outputs.get ⟨j, hj⟩).right - (env.outputs.get ⟨j, hj⟩).left) ∧
        ((EnumDXGIOutputs infos maxCount env).infos j).height
          = wrap32 ((env.outputs.get ⟨j, hj⟩).bottom - (env.outputs.get ⟨j, hj⟩).top) ∧
        ((EnumDXGIOutputs infos maxCount env).infos j).offsetX
          = (env.outputs.get ⟨j, hj⟩).left ∧
        ((EnumDXGIOutputs infos maxCount env).infos j).offsetY
          = (env.outputs.get ⟨j, hj⟩).top ∧
        (-2147483648 ≤ (env.outputs.get ⟨j, hj⟩).right - (env.outputs.get ⟨j, hj⟩).left →
          (env.outputs.get ⟨j, hj⟩).right - (env.outputs.get ⟨j, hj⟩).left < 2147483648 →
          ((EnumDXGIOutputs infos maxCount env).infos j).width
            = (env.outputs.get ⟨j, hj⟩).right - (env.outputs.get ⟨j, hj⟩).left) ∧
        (-2147483648 ≤ (env.outputs.get ⟨j, hj⟩).bottom - (env.outputs.get ⟨j, hj⟩).top →
          (env.outputs.get ⟨j, hj⟩).bottom - (env.outputs.get ⟨j, hj⟩).top < 2147483648 →
          ((EnumDXGIOutputs infos maxCount env).infos j).height
            = (env.outputs.get ⟨j, hj⟩).bottom - (env.outputs.get ⟨j, hj⟩).top))) ∧
    (maxCount = 0 →
      (EnumDXGIOutputs infos maxCount env).ret = 0 ∧
      (EnumDXGIOutputs infos maxCount env).infos = infos) := by
  have hok : (¬ env.hrCreateDevice < 0 ∧ ¬ env.hrQueryDevice < 0 ∧ ¬ env.hrGetAdapter < 0) →
      (EnumDXGIOutputs infos maxCount env).ret = min maxCount env.outputs.length ∧
      (∀ k : Nat, min maxCount env.outputs.length ≤ (k : Int) →
        (EnumDXGIOutputs infos maxCount env).infos k = infos k) ∧
      (∀ (j : Nat) (hj : j < env.outputs.length), (j : Int) < maxCount →
        (EnumDXGIOutputs infos maxCount env).infos j
          = fillInfo (env.outputs.get ⟨j, hj⟩) j (infos j)) := by
    rintro ⟨h1, h2, h3⟩
    rw [EnumDXGIOutputs_ok infos maxCount env h1 h2 h3]
    obtain ⟨e1, e2, e3⟩ := enumLoop_spec maxCount env.outputs 0 ⟨0, infos,
      [.obtain .device, .obtain .context, .obtain .dxgiDevice, .obtain .adapter,
       .release .dxgiDevice]⟩
    dsimp only at e1 e2 e3 ⊢
    refine ⟨?_, ?_, ?_⟩
    · rw [e1]; push_cast; simp only [Int.sub_zero, Int.toNat_of_nonneg hmax]; omega
    · intro k hk
      apply e3 k
      right
      have : (((min env.outputs.length (maxCount - ((0 : Nat) : Int)).toNat : Nat)) : Int)
          = min maxCount env.outputs.length := by
        push_cast; simp only [Int.sub_zero, Int.toNat_of_nonneg hmax]; omega
      omega
    · intro j hj hlt
      have := e2 j hj (by simpa using hlt)
      simpa using this
  refine ⟨EnumDXGIOutputs_failed infos maxCount env, ?_, ?_⟩
  · intro h
    obtain ⟨r1, r2, r3⟩ := hok h
    refine ⟨r1, r2, ?_⟩
    intro j hj hlt
    rw [r3 j hj hlt]
    refine ⟨rfl, rfl, rfl, rfl, rfl, fun a b => wrap32_of_range _ a b,
      fun a b => wrap32_of_range _ a b⟩
  · intro h0
    by_cases hf : env.hrCreateDevice < 0 ∨ env.hrQueryDevice < 0 ∨ env.hrGetAdapter < 0
    · exact EnumDXGIOutputs_failed infos maxCount env hf
    · have h : ¬ env.hrCreateDevice < 0 ∧ ¬ env.hrQueryDevice < 0 ∧ ¬ env.hrGetAdapter < 0 := by
        tauto
      obtain ⟨r1, r2, _⟩ := hok h
      refine ⟨by rw [r1, h0]; omega, ?_⟩
      funext k
      apply r2 k
      rw [h0]; omega

/-- Witness for `EnumDXGIOutputs_count_and_order`: two outputs, room for one entry. -/
theorem EnumDXGIOutputs_count_and_order_witness :
    (EnumDXGIOutputs staleInfos 1 ⟨0, 0, 0, twoAtOrigin⟩).ret
      = min (1 : Int) (EnumEnv.mk 0 0 0 twoAtOrigin).outputs.length :=
  ((EnumDXGIOutputs_count_and_order staleInfos 1 ⟨0, 0, 0, twoAtOrigin⟩ (by decide)).2.1
    ⟨by decide, by decide, by decide⟩).1

/-- C7 (as stated) fails: with two outputs at origin (0,0) and room for both, the earlier
output is flagged primary as well as the last one. -/
theorem EnumDXGIOutputs_both_primary :
    (EnumDXGIOutputs staleInfos 2 ⟨0, 0, 0, twoAtOrigin⟩).ret = 2 ∧
    ((EnumDXGIOutputs staleInfos 2 ⟨0, 0, 0, twoAtOrigin⟩).infos 1).isPrimary = 1 ∧
    ((EnumDXGIOutputs staleInfos 2 ⟨0, 0, 0, twoAtOrigin⟩).infos 0).isPrimary = 1 ∧
    ((EnumDXGIOutputs staleInfos 2 ⟨0, 0, 0, twoAtOrigin⟩).infos 0).isPrimary ≠ 0 := by
  decide

/-- C7 (amended). When device and adapter acquisition succeed, every descriptor that
`EnumDXGIOutputs` writes has `isPrimary = 1` if its output's desktop origin is (0,0) and
`isPrimary = 0` otherwise, independently of the other outputs: when several written
outputs share origin (0,0), the last one and every earlier one have `isPrimary = 1`. -/
theorem EnumDXGIOutputs_isPrimary (infos : Nat → MonitorInfoC) (maxCount : Int)
    (env : EnumEnv) (h1 : ¬ env.hrCreateDevice < 0) (h2 : ¬ env.hrQueryDevice < 0)
    (h3 : ¬ env.hrGetAdapter < 0) (j : Nat) (hj : j < env.outputs.length)
    (hlt : (j : Int) < maxCount) :
    ((EnumDXGIOutputs infos maxCount env).infos j).isPrimary
      = if (env.outputs.get ⟨j, hj⟩).left = 0 ∧ (env.outputs.get ⟨j, hj⟩).top = 0
        then 1 else 0 := by
  rw [EnumDXGIOutputs_ok infos maxCount env h1 h2 h3]
  have e2 := (enumLoop_spec maxCount env.outputs 0 ⟨0, infos,
    [.obtain .device, .obtain .context, .obtain .dxgiDevice, .obtain .adapter,
     .release .dxgiDevice]⟩).2.1 j hj (by simpa using hlt)
  dsimp only at e2 ⊢
  simp only [Nat.zero_add] at e2
  rw [e2]
  simp [fillInfo]

/-- Witness for `EnumDXGIOutputs_isPrimary`: output 0 of two outputs at origin (0,0). -/
theorem EnumDXGIOutputs_isPrimary_witness :
    ((EnumDXGIOutputs staleInfos 2 ⟨0, 0, 0, twoAtOrigin⟩).infos 0).isPrimary
      = if ((EnumEnv.mk 0 0 0 twoAtOrigin).outputs.get ⟨0, by decide⟩).left = 0 ∧
          ((EnumEnv.mk 0 0 0 twoAtOrigin).outputs.get ⟨0, by decide⟩).top = 0
        then 1 else 0 :=
  EnumDXGIOutputs_isPrimary staleInfos 2 ⟨0, 0, 0, twoAtOrigin⟩ (by decide) (by decide)
    (by decide) 0 (by decide) (by decide)

/-- The name loop never stops for lack of allowed iterations: once `63 - j` of them are
available, allowing one more changes nothing. -/
theorem nameLoop_fuel (dev : Nat → Nat) :
    ∀ (fuel j : Nat) (nm : Nat → Nat), 63 ≤ fuel + j →
      nameLoop dev (fuel + 1) j nm = nameLoop dev fuel j nm := by
  intro fuel
  induction fuel with
  | zero =>
    intro j nm h
    simp only [nameLoop]
    rw [if_neg (by omega)]
  | succ fuel ih =>
    intro j nm h
    have e1 : ∀ f : Nat, nameLoop dev (f + 1) j nm
        = if j < 63 ∧ dev j ≠ 0 then
            nameLoop dev f (j + 1) (store (store nm j (toChar (dev j))) (j + 1) 0)
          else nm := fun _ => rfl
    rw [e1 (fuel + 1), e1 fuel]
    by_cases hc : j < 63 ∧ dev j ≠ 0
    · rw [if_pos hc, if_pos hc]
      exact ih (j + 1) _ (by omega)
    · rw [if_neg hc, if_neg hc]

/-- The name conversion is the loop run with any larger allowance of iterations. -/
theorem convertName_fuel (dev : Nat → Nat) (nm : Nat → Nat) :
    ∀ extra : Nat, nameLoop dev (64 + extra) 0 nm = convertName dev nm := by
  intro extra
  induction extra with
  | zero => rfl
  | succ e ih =>
    rw [← ih]
    exact nameLoop_fuel dev (64 + e) 0 nm (by omega)

/-- The name loop on a device name whose first `m` characters (from `j` on) are non-zero,
with `m ≤ 63` and a terminator at `m` when `m < 63`: given fuel for the `m - j` iterations
it leaves by its own condition, having set bytes `j .. m - 1` to the low bytes of the
characters and, if it ran at all, byte `m` to 0; all other bytes are as before. -/
theorem nameLoop_spec (dev : Nat → Nat) (m : Nat) (hm : m ≤ 63)
    (hnz : ∀ t, t < m → dev t ≠ 0) (hz : m < 63 → dev m = 0) :
    ∀ (fuel j : Nat) (nm : Nat → Nat), j ≤ m → m - j ≤ fuel → ∀ k : Nat,
      nameLoop dev fuel j nm k
        = if j ≤ k ∧ k < m then toChar (dev k)
          else if k = m ∧ j < m then 0 else nm k := by
  intro fuel
  induction fuel with
  | zero =>
    intro j nm hj hf k
    have hjm : j = m := by omega
    simp only [nameLoop]
    rw [if_neg (by omega), if_neg (by omega)]
  | succ fuel ih =>
    intro j nm hj hf k
    by_cases hc : j < 63 ∧ dev j ≠ 0
    · have hjm : j < m := by
        rcases Nat.lt_or_ge j m with h | h
        · exact h
        · have : j = m := by omega
          subst this
          exact absurd (hz hc.1) hc.2
      simp only [nameLoop, if_pos hc]
      rw [ih (j + 1) _ hjm (by omega) k]
      simp only [store]
      split_ifs <;> first | rfl | omega | (congr 2; omega)
    · have hjm : j = m := by
        rcases Nat.lt_or_ge j m with h | h
        · exact absurd ⟨by omega, hnz j h⟩ hc
        · omega
      simp only [nameLoop, if_neg hc]
      rw [if_neg (by omega), if_neg (by omega)]

/-- C6 for non-empty names. For a device name with `L ≥ 1` characters, whatever the name
field held before, `convertName` stores the low byte of character `j` in `name[j]` for
every `j < min L 63` and 0 in `name[min L 63]`. -/
theorem convertName_truncates_and_terminates (dev : Nat → Nat) (L : Nat) (hL : 1 ≤ L)
    (hnz : ∀ t, t < min L 63 → dev t ≠ 0) (hz : L < 63 → dev L = 0) (nm : Nat → Nat) :
    (∀ j, j < min L 63 → convertName dev nm j = toChar (dev j)) ∧
    convertName dev nm (min L 63) = 0 := by
  have hz' : min L 63 < 63 → dev (min L 63) = 0 := by
    intro h
    have hlt : L < 63 := by omega
    rw [Nat.min_eq_left (by omega)]
    exact hz hlt
  have key := nameLoop_spec dev (min L 63) (Nat.min_le_right _ _) hnz hz' 64 0 nm
    (Nat.zero_le _) (by omega)
  refine ⟨?_, ?_⟩
  · intro j hj
    rw [convertName, key j, if_pos ⟨Nat.zero_le _, hj⟩]
  · rw [convertName, key (min L 63), if_neg (by omega), if_pos ⟨rfl, by omega⟩]

/-- Witness for `convertName_truncates_and_terminates`: the one-character name `A`. -/
theorem convertName_truncates_and_terminates_witness :
    convertName (wideName [65]) (fun _ => 88) (min 1 63) = 0 :=
  (convertName_truncates_and_terminates (wideName [65]) 1 (by decide) (by decide)
    (by decide) (fun _ => 88)).2

/-- C6 (the code at a failing input). An adapter whose only output has an empty device
name, enumerated into an array whose name bytes all hold 88: the descriptor is written,
but the loop body that stores the terminator never runs, so `name[0]` (and every other
byte of the 64-byte field) still holds 88 and the name is not null-terminated. -/
theorem EnumDXGIOutputs_empty_name_not_terminated :
    (EnumDXGIOutputs staleInfos 1 ⟨0, 0, 0, oneUnnamed⟩).ret = 1 ∧
    ((EnumDXGIOutputs staleInfos 1 ⟨0, 0, 0, oneUnnamed⟩).infos 0).width = 1920 ∧
    ((EnumDXGIOutputs staleInfos 1 ⟨0, 0, 0, oneUnnamed⟩).infos 0).name 0 = 88 ∧
    ∀ j, j < 64 → ((EnumDXGIOutputs staleInfos 1 ⟨0, 0, 0, oneUnnamed⟩).infos 0).name j ≠ 0 := by
  decide

/-- The holdings after two traces in sequence: replay the first, then the second from
where the first ended. -/
theorem ledger_append (t1 t2 : List GpuCall) :
    ∀ H : List Handle, ledger H (t1 ++ t2) = (ledger H t1).bind fun H' => ledger H' t2 := by
  induction t1 with
  | nil => intro H; rfl
  | cons c cs ih =>
    intro H
    cases c <;> simp only [List.cons_append, ledger] <;> first
      | exact ih H
      | (split_ifs <;> first | rfl | exact ih _)

/-- Obtaining a handle not yet held and releasing it at once leaves the holdings as they
were. -/
theorem ledger_obtain_release (H : List Handle) (h : Handle) (hn : h ∉ H) (t : List GpuCall) :
    ledger H (.obtain h :: .release h :: t) = ledger H t := by
  have e : (H ++ [h]).erase h = H := by
    rw [List.erase_append_right _ hn]; simp
  simp [ledger, hn, e]

/-- A trace that replays without failure accounts for every reference: for each handle,
obtains plus references held at the start equal releases plus references held at the
end. -/
theorem ledger_balance (h : Handle) :
    ∀ (t : List GpuCall) (H H' : List Handle), ledger H t = some H' →
      t.count (.obtain h) + H.count h = t.count (.release h) + H'.count h := by
  intro t
  induction t with
  | nil =>
    intro H H' e
    simp only [ledger, Option.some.injEq] at e
    subst e
    simp
  | cons c cs ih =>
    intro H H' e
    cases c with
    | obtain g =>
      simp only [ledger] at e
      by_cases hg : g ∈ H
      · simp [hg] at e
      · rw [if_neg hg] at e
        have := ih _ _ e
        rw [List.count_append] at this
        by_cases hgh : g = h
        · subst hgh
          simp [List.count_cons] at this ⊢
          omega
        · have hgh' : h ≠ g := fun x => hgh x.symm
          simp [List.count_cons, hgh, hgh'] at this ⊢
          omega
    | release g =>
      simp only [ledger] at e
      by_cases hg : g ∈ H
      · rw [if_pos hg] at e
        have := ih _ _ e
        by_cases hgh : g = h
        · subst hgh
          have hpos : 0 < List.count g H := List.count_pos_iff.mpr hg
          rw [List.count_erase_self] at this
          simp [List.count_cons] at this ⊢
          omega
        · have hgh' : h ≠ g := fun x => hgh x.symm
          rw [List.count_erase_of_ne hgh'] at this
          simp [List.count_cons, hgh, hgh'] at this ⊢
          omega
      · simp [hg] at e
    | acquireNextFrame hr => simpa [ledger, List.count_cons] using ih _ _ e
    | queryTexture hr => simpa [ledger, List.count_cons] using ih _ _ e
    | releaseFrame => simpa [ledger, List.count_cons] using ih _ _ e
    | copyResource => simpa [ledger, List.count_cons] using ih _ _ e
    | map hr => simpa [ledger, List.count_cons] using ih _ _ e
    | unmap => simpa [ledger, List.count_cons] using ih _ _ e

/-- The calls the enumeration loop adds to the trace: every output processed by the body
is obtained and released; if the loop stops because `count < maxCount` fails while outputs
remain, the output obtained by that last condition call is added to the holdings and stays
there. -/
theorem enumLoop_trace (maxCount : Int) :
    ∀ (l : List DXGI_OUTPUT_DESC) (i : Nat) (st : EnumState),
      ∃ tail : List GpuCall, (enumLoop maxCount l i st).trace = st.trace ++ tail ∧
        ∀ H : List Handle, (∀ j : Nat, Handle.output ((i + j : Nat) : Int) ∉ H) →
          ledger H tail = some
            (if (maxCount - st.count).toNat < l.length
              then H ++ [.output ((i + (maxCount - st.count).toNat : Nat) : Int)] else H) := by
  intro l
  induction l with
  | nil =>
    intro i st
    exact ⟨[], by simp [enumLoop], fun H _ => by simp [ledger]⟩
  | cons d rest ih =>
    intro i st
    by_cases hc : (st.count : Int) < maxCount
    · obtain ⟨tail, ht, hl⟩ := ih (i + 1)
        { count := st.count + 1
          infos := store st.infos st.count (fillInfo d i (st.infos st.count))
          trace := st.trace ++ [.obtain (.output i)] ++ [.release (.output i)] }
      dsimp only at ht hl
      refine ⟨.obtain (.output i) :: .release (.output i) :: tail, ?_, ?_⟩
      · simp only [enumLoop, if_pos hc]
        rw [ht]; simp
      · intro H hH
        rw [ledger_obtain_release H _ (by simpa using hH 0)]
        rw [hl H (fun j => by have := hH (j + 1); rwa [show i + (j + 1) = i + 1 + j by omega] at this)]
        have e1 : (maxCount - (st.count : Int)).toNat
            = (maxCount - ((st.count + 1 : Nat) : Int)).toNat + 1 := by omega
        rw [e1]
        simp only [List.length_cons, Nat.add_lt_add_iff_right]
        rw [show i + 1 + (maxCount - ((st.count + 1 : Nat) : Int)).toNat
            = i + ((maxCount - ((st.count + 1 : Nat) : Int)).toNat + 1) by omega]
    · refine ⟨[.obtain (.output i)], ?_, ?_⟩
      · simp only [enumLoop, if_neg hc]
      · intro H hH
        have e0 : (maxCount - (st.count : Int)).toNat = 0 := by omega
        have hn : Handle.output (i : Int) ∉ H := by simpa using hH 0
        simp [ledger, hn, e0]

/-- What `EnumDXGIOutputs` still holds when it returns (acquisition succeeding,
`maxCount ≥ 0`, `n` outputs): nothing when `maxCount ≥ n`, and the output of index
`maxCount` when `maxCount < n`. Adapter, device and context are always released. -/
theorem EnumDXGIOutputs_ledger (infos : Nat → MonitorInfoC) (maxCount : Int)
    (env : EnumEnv) (hmax : 0 ≤ maxCount)
    (h1 : ¬ env.hrCreateDevice < 0) (h2 : ¬ env.hrQueryDevice < 0)
    (h3 : ¬ env.hrGetAdapter < 0) :
    ledger [] (EnumDXGIOutputs infos maxCount env).trace
      = some (if maxCount < env.outputs.length then [.output maxCount] else []) := by
  rw [EnumDXGIOutputs_ok infos maxCount env h1 h2 h3]
  obtain ⟨tail, ht, hl⟩ := enumLoop_trace maxCount env.outputs 0 ⟨0, infos,
    [.obtain .device, .obtain .context, .obtain .dxgiDevice, .obtain .adapter,
     .release .dxgiDevice]⟩
  dsimp only at ht hl ⊢
  rw [ht, ledger_append, ledger_append]
  have hpre : ledger [] [.obtain .device, .obtain .context, .obtain .dxgiDevice,
      .obtain .adapter, .release .dxgiDevice] = some [.device, .context, .adapter] := by
    simp [ledger]
  rw [hpre]
  simp only [Option.some_bind]
  rw [hl [.device, .context, .adapter] (by intro j; simp)]
  simp only [Option.some_bind]
  have hT : ((maxCount - ((0 : Nat) : Int)).toNat : Int) = maxCount := by
    simp only [Nat.cast_zero, Int.sub_zero]; exact Int.toNat_of_nonneg hmax
  by_cases hlt : maxCount < env.outputs.length
  · have : (maxCount - ((0 : Nat) : Int)).toNat < env.outputs.length := by omega
    rw [if_pos this, if_pos hlt]
    simp only [Nat.zero_add, hT]
    simp [ledger]
  · have : ¬ (maxCount - ((0 : Nat) : Int)).toNat < env.outputs.length := by omega
    rw [if_neg this, if_neg hlt]
    simp [ledger]

/-- C10 (the code at a failing input). An adapter with one output, `maxCount = 0`: the
loop condition calls `EnumOutputs(0, &output)` and obtains the output, `count < maxCount`
then stops the loop, and the function returns 0 having released adapter, device and
context but not the output: the output handle is obtained once and released zero times,
and is the one reference still held at return. -/
theorem EnumDXGIOutputs_leaks_last_output :
    (EnumDXGIOutputs staleInfos 0 ⟨0, 0, 0, oneUnnamed⟩).ret = 0 ∧
    (EnumDXGIOutputs staleInfos 0 ⟨0, 0, 0, oneUnnamed⟩).trace
      = [.obtain .device, .obtain .context, .obtain .dxgiDevice, .obtain .adapter,
         .release .dxgiDevice, .obtain (.output 0), .release .adapter, .release .device,
         .release .context] ∧
    (EnumDXGIOutputs staleInfos 0 ⟨0, 0, 0, oneUnnamed⟩).trace.count (.obtain (.output 0)) = 1 ∧
    (EnumDXGIOutputs staleInfos 0 ⟨0, 0, 0, oneUnnamed⟩).trace.count (.release (.output 0)) = 0 ∧
    ledger [] (EnumDXGIOutputs staleInfos 0 ⟨0, 0, 0, oneUnnamed⟩).trace
      = some [.output 0] := by
  decide

/-! ## Theorems: session creation -/

/-- The eight ways `InitDXGIForOutput` returns: for each, the steps that succeeded, the
step that failed (if any), and the complete outcome with its trace. -/
theorem InitDXGIForOutput_cases (outputIndex : Int) (env : InitEnv) :
    (FAILED env.hrCreateDevice = true ∧ InitDXGIForOutput outputIndex env = (none, [])) ∨
    (FAILED env.hrCreateDevice = false ∧ FAILED env.hrQueryDevice = true ∧
      InitDXGIForOutput outputIndex env
        = (none, [.obtain .device, .obtain .context, .release .device, .release .context])) ∨
    (FAILED env.hrCreateDevice = false ∧ FAILED env.hrQueryDevice = false ∧
      FAILED env.hrGetAdapter = true ∧
      InitDXGIForOutput outputIndex env
        = (none, [.obtain .device, .obtain .context, .obtain .dxgiDevice,
            .release .dxgiDevice, .release .device, .release .context])) ∨
    (FAILED env.hrCreateDevice = false ∧ FAILED env.hrQueryDevice = false ∧
      FAILED env.hrGetAdapter = false ∧ FAILED (env.hrEnumOutputs outputIndex) = true ∧
      InitDXGIForOutput outputIndex env
        = (none, [.obtain .device, .obtain .context, .obtain .dxgiDevice, .obtain .adapter,
            .release .dxgiDevice, .release .adapter, .release .device, .release .context])) ∨
    (FAILED env.hrCreateDevice = false ∧ FAILED env.hrQueryDevice = false ∧
      FAILED env.hrGetAdapter = false ∧ FAILED (env.hrEnumOutputs outputIndex) = false ∧
      FAILED env.hrQueryOutput1 = true ∧
      InitDXGIForOutput outputIndex env
        = (none, [.obtain .device, .obtain .context, .obtain .dxgiDevice, .obtain .adapter,
            .release .dxgiDevice, .obtain (.output outputIndex), .release .adapter,
            .release (.output outputIndex), .release .device, .release .context])) ∨
    (FAILED env.hrCreateDevice = false ∧ FAILED env.hrQueryDevice = false ∧
      FAILED env.hrGetAdapter = false ∧ FAILED (env.hrEnumOutputs outputIndex) = false ∧
      FAILED env.hrQueryOutput1 = false ∧ FAILED env.hrDuplicateOutput = true ∧
      InitDXGIForOutput outputIndex env
        = (none, [.obtain .device, .obtain .context, .obtain .dxgiDevice, .obtain .adapter,
            .release .dxgiDevice, .obtain (.output outputIndex), .release .adapter,
            .obtain .output1, .release (.output outputIndex), .release .output1,
            .release .device, .release .context])) ∨
    (FAILED env.hrCreateDevice = false ∧ FAILED env.hrQueryDevice = false ∧
      FAILED env.hrGetAdapter = false ∧ FAILED (env.hrEnumOutputs outputIndex) = false ∧
      FAILED env.hrQueryOutput1 = false ∧ FAILED env.hrDuplicateOutput = false ∧
      FAILED env.hrCreateTexture = true ∧
      InitDXGIForOutput outputIndex env
        = (none, [.obtain .device, .obtain .context, .obtain .dxgiDevice, .obtain .adapter,
            .release .dxgiDevice, .obtain (.output outputIndex), .release .adapter,
            .obtain .output1, .release (.output outputIndex), .obtain .duplication,
            .release .output1, .release .duplication, .release .device,
            .release .context])) ∨
    (FAILED env.hrCreateDevice = false ∧ FAILED env.hrQueryDevice = false ∧
      FAILED env.hrGetAdapter = false ∧ FAILED (env.hrEnumOutputs outputIndex) = false ∧
      FAILED env.hrQueryOutput1 = false ∧ FAILED env.hrDuplicateOutput = false ∧
      FAILED env.hrCreateTexture = false ∧
      InitDXGIForOutput outputIndex env
        = (some ⟨.device, .context, .duplication, .staging,
              wrap32 env.modeWidth, wrap32 env.modeHeight⟩,
           [.obtain .device, .obtain .context, .obtain .dxgiDevice, .obtain .adapter,
            .release .dxgiDevice, .obtain (.output outputIndex), .release .adapter,
            .obtain .output1, .release (.output outputIndex), .obtain .duplication,
            .release .output1, .obtain .staging])) := by
  cases h1 : FAILED env.hrCreateDevice
  swap
  · simp [InitDXGIForOutput, h1]
  cases h2 : FAILED env.hrQueryDevice
  swap
  · simp [InitDXGIForOutput, h1, h2]
  cases h3 : FAILED env.hrGetAdapter
  swap
  · simp [InitDXGIForOutput, h1, h2, h3]
  cases h4 : FAILED (env.hrEnumOutputs outputIndex)
  swap
  · simp [InitDXGIForOutput, h1, h2, h3, h4]
  cases h5 : FAILED env.hrQueryOutput1
  swap
  · simp [InitDXGIForOutput, h1, h2, h3, h4, h5]
  cases h6 : FAILED env.hrDuplicateOutput
  swap
  · simp [InitDXGIForOutput, h1, h2, h3, h4, h5, h6]
  cases h7 : FAILED env.hrCreateTexture
  swap
  · simp [InitDXGIForOutput, h1, h2, h3, h4, h5, h6, h7]
  simp [InitDXGIForOutput, h1, h2, h3, h4, h5, h6, h7]

/-- Session creation returns null exactly when one of its seven steps fails. -/
theorem InitDXGIForOutput_null_iff (outputIndex : Int) (env : InitEnv) :
    (InitDXGIForOutput outputIndex env).1 = none ↔ initFails outputIndex env = true := by
  rcases InitDXGIForOutput_cases outputIndex env with
      ⟨h1, e⟩ | ⟨h1, h2, e⟩ | ⟨h1, h2, h3, e⟩ | ⟨h1, h2, h3, h4, e⟩ |
      ⟨h1, h2, h3, h4, h5, e⟩ | ⟨h1, h2, h3, h4, h5, h6, e⟩ |
      ⟨h1, h2, h3, h4, h5, h6, h7, e⟩ | ⟨h1, h2, h3, h4, h5, h6, h7, e⟩ <;>
    rw [e] <;> simp [initFails, *]

/-- On every failing path of session creation the trace ends with no handle held. -/
theorem InitDXGIForOutput_failure_ledger (outputIndex : Int) (env : InitEnv)
    (hf : initFails outputIndex env = true) :
    ledger [] (InitDXGIForOutput outputIndex env).2 = some [] := by
  rcases InitDXGIForOutput_cases outputIndex env with
      ⟨h1, e⟩ | ⟨h1, h2, e⟩ | ⟨h1, h2, h3, e⟩ | ⟨h1, h2, h3, h4, e⟩ |
      ⟨h1, h2, h3, h4, h5, e⟩ | ⟨h1, h2, h3, h4, h5, h6, e⟩ |
      ⟨h1, h2, h3, h4, h5, h6, h7, e⟩ | ⟨h1, h2, h3, h4, h5, h6, h7, e⟩ <;>
    rw [e]
  · simp [ledger]
  · simp [ledger]
  · simp [ledger]
  · simp [ledger]
  · simp [ledger]
  · simp [ledger]
  · simp [ledger]
  · simp [initFails, *] at hf

/-- The outcome of session creation when no step fails. -/
theorem InitDXGIForOutput_success (outputIndex : Int) (env : InitEnv)
    (hs : initFails outputIndex env = false) :
    InitDXGIForOutput outputIndex env
      = (some ⟨.device, .context, .duplication, .staging,
            wrap32 env.modeWidth, wrap32 env.modeHeight⟩,
         [.obtain .device, .obtain .context, .obtain .dxgiDevice, .obtain .adapter,
          .release .dxgiDevice, .obtain (.output outputIndex), .release .adapter,
          .obtain .output1, .release (.output outputIndex), .obtain .duplication,
          .release .output1, .obtain .staging]) := by
  rcases InitDXGIForOutput_cases outputIndex env with
      ⟨h1, e⟩ | ⟨h1, h2, e⟩ | ⟨h1, h2, h3, e⟩ | ⟨h1, h2, h3, h4, e⟩ |
      ⟨h1, h2, h3, h4, h5, e⟩ | ⟨h1, h2, h3, h4, h5, h6, e⟩ |
      ⟨h1, h2, h3, h4, h5, h6, h7, e⟩ | ⟨h1, h2, h3, h4, h5, h6, h7, e⟩
  all_goals first
    | exact e
    | (simp [initFails, *] at hs)

/-- On every path of session creation each handle is obtained at most once. -/
theorem InitDXGIForOutput_obtain_once (outputIndex : Int) (env : InitEnv) (h : Handle) :
    (InitDXGIForOutput outputIndex env).2.count (.obtain h) ≤ 1 := by
  rcases InitDXGIForOutput_cases outputIndex env with
      ⟨_, e⟩ | ⟨_, _, e⟩ | ⟨_, _, _, e⟩ | ⟨_, _, _, _, e⟩ |
      ⟨_, _, _, _, _, e⟩ | ⟨_, _, _, _, _, _, e⟩ |
      ⟨_, _, _, _, _, _, _, e⟩ | ⟨_, _, _, _, _, _, _, e⟩ <;>
    rw [e] <;> cases h <;> simp [List.count_cons] <;> split_ifs <;> omega

/-- C8. For every output index and every outcome of the seven fallible steps,
`InitDXGIForOutput` returns null exactly when one of the steps fails; in that case its
trace releases only handles it holds and ends holding none, every handle being obtained
at most once and released exactly as often as it was obtained (every handle obtained
before the failing step is released exactly once). When no step fails it returns a
session with device, context, duplication and staging and the mode size, and the trace
ends holding exactly these four, unreleased, the DXGI device, the adapter, the output and
the output1 interface having been obtained and released once each. `InitDXGI` is the same
function at output index 0. -/
theorem InitDXGIForOutput_rollback (outputIndex : Int) (env : InitEnv) :
    ((InitDXGIForOutput outputIndex env).1 = none ↔ initFails outputIndex env = true) ∧
    (initFails outputIndex env = true →
      ledger [] (InitDXGIForOutput outputIndex env).2 = some [] ∧
      ∀ h : Handle,
        (InitDXGIForOutput outputIndex env).2.count (.release h)
          = (InitDXGIForOutput outputIndex env).2.count (.obtain h) ∧
        (InitDXGIForOutput outputIndex env).2.count (.obtain h) ≤ 1) ∧
    (initFails outputIndex env = false →
      (InitDXGIForOutput outputIndex env).1
        = some ⟨.device, .context, .duplication, .staging,
            wrap32 env.modeWidth, wrap32 env.modeHeight⟩ ∧
      ledger [] (InitDXGIForOutput outputIndex env).2
        = some [.device, .context, .duplication, .staging] ∧
      (∀ h ∈ [Handle.dxgiDevice, .adapter, .output outputIndex, .output1],
        (InitDXGIForOutput outputIndex env).2.count (.obtain h) = 1 ∧
        (InitDXGIForOutput outputIndex env).2.count (.release h) = 1) ∧
      (∀ h ∈ [Handle.device, .context, .duplication, .staging],
        (InitDXGIForOutput outputIndex env).2.count (.obtain h) = 1 ∧
        (InitDXGIForOutput outputIndex env).2.count (.release h) = 0)) ∧
    InitDXGI env = InitDXGIForOutput 0 env := by
  have hrel : InitDXGI env = InitDXGIForOutput 0 env := by
    unfold InitDXGI InitDXGIForOutput
    rfl
  refine ⟨InitDXGIForOutput_null_iff outputIndex env, ?_, ?_, hrel⟩
  · intro hf
    have hl := InitDXGIForOutput_failure_ledger outputIndex env hf
    refine ⟨hl, fun h => ⟨?_, InitDXGIForOutput_obtain_once outputIndex env h⟩⟩
    have := ledger_balance h _ _ _ hl
    simpa using this.symm
  · intro hs
    rw [InitDXGIForOutput_success outputIndex env hs]
    refine ⟨rfl, ?_, ?_, ?_⟩
    · simp [ledger]
    · simp
    · simp

end DxgiCapture
